import Mathlib

/-!
Verification of `capture_wifi.py`, a WiFi camera client for an ESP32-S3
camera server.  The Python source is shallowly embedded: pure string and
number manipulation becomes Lean functions on `List Char` / `Int`,
network I/O (the `requests` library) is modelled by explicit oracles
describing the outcome of each HTTP request, and the side effects of the
interactive loop (prints, captures, setting applications) are reified as
lists of `Effect` values.
-/

/-! ### Python string primitives (modelled on `List Char`) -/

/-- Python `str.strip()`: drop whitespace from both ends. -/
def pyStrip (l : List Char) : List Char :=
  ((l.dropWhile Char.isWhitespace).reverse.dropWhile Char.isWhitespace).reverse

/-- Auxiliary for `pySplit`: accumulates the current (reversed) token. -/
def pySplitAux : List Char → List Char → List (List Char)
  | [], acc => if acc = [] then [] else [acc.reverse]
  | c :: rest, acc =>
      if c.isWhitespace then
        (if acc = [] then pySplitAux rest [] else acc.reverse :: pySplitAux rest [])
      else pySplitAux rest (c :: acc)

/-- Python `str.split()` with no argument: split on runs of whitespace,
discarding empty tokens. -/
def pySplit (l : List Char) : List (List Char) := pySplitAux l []

/-- ASCII lower-casing of one character (Python `str.lower()` on the
ASCII command words used by the script). -/
def asciiLower (c : Char) : Char :=
  if 'A' ≤ c ∧ c ≤ 'Z' then Char.ofNat (c.toNat + 32) else c

/-- Python `str.lower()`. -/
def pyLower (l : List Char) : List Char := l.map asciiLower

/-- Numeric value of a decimal digit character. -/
def digitVal (c : Char) : Nat := c.toNat - 48

/-- Digits of a Python integer literal after the first digit: decimal
digits with single underscores allowed between digits (as accepted by
Python `int`). -/
def parseDigitsAux (acc : Nat) : List Char → Option Nat
  | [] => some acc
  | c :: rest =>
      if c.isDigit then parseDigitsAux (10 * acc + digitVal c) rest
      else if c = '_' then
        match rest with
        | [] => none
        | c2 :: rest2 =>
            if c2.isDigit then parseDigitsAux (10 * acc + digitVal c2) rest2
            else none
      else none

/-- Parse a nonempty all-digit (with internal underscores) string. -/
def parseUnsigned : List Char → Option Nat
  | [] => none
  | c :: rest => if c.isDigit then parseDigitsAux (digitVal c) rest else none

/-- Python `int(s)` on a string: strip whitespace, optional sign, then
decimal digits; `none` models the `ValueError` raised on bad input. -/
def pyInt (l : List Char) : Option Int :=
  match pyStrip l with
  | '+' :: rest => (parseUnsigned rest).map (fun n => (n : Int))
  | '-' :: rest => (parseUnsigned rest).map (fun n => -(n : Int))
  | rest => (parseUnsigned rest).map (fun n => (n : Int))

/-! ### Camera settings and `apply_camera_settings` (source lines 220-294) -/

/-- The eleven independently optional keyword parameters of
`apply_camera_settings`. -/
structure CameraSettings where
  aec : Option Int := none
  aec_value : Option Int := none
  ae_level : Option Int := none
  gain_ctrl : Option Int := none
  agc_gain : Option Int := none
  quality : Option Int := none
  framesize : Option Int := none
  brightness : Option Int := none
  contrast : Option Int := none
  saturation : Option Int := none
  sharpness : Option Int := none
  deriving DecidableEq, Repr

/-- All parameters absent (every keyword left at its default `None`). -/
def noSettings : CameraSettings := {}

/-- One `if x is not None: settings.append((name, x))` step of
`apply_camera_settings`. -/
def optSetting (name : String) (v : Option Int) (rest : List (String × Int)) :
    List (String × Int) :=
  match v with
  | some x => (name, x) :: rest
  | none => rest

/-- The `settings` list built by `apply_camera_settings` (source lines
243-266): present parameters in the fixed textual order of the source. -/
def settingsList (s : CameraSettings) : List (String × Int) :=
  optSetting "aec" s.aec
    (optSetting "aec_value" s.aec_value
      (optSetting "ae_level" s.ae_level
        (optSetting "gain_ctrl" s.gain_ctrl
          (optSetting "agc_gain" s.agc_gain
            (optSetting "quality" s.quality
              (optSetting "framesize" s.framesize
                (optSetting "brightness" s.brightness
                  (optSetting "contrast" s.contrast
                    (optSetting "saturation" s.saturation
                      (optSetting "sharpness" s.sharpness []))))))))))

/-- Outcome of one `requests.get` call to `/control`: an HTTP status
code, or a raised exception. -/
inductive NetResult where
  | status (code : Nat)
  | exn
  deriving DecidableEq, Repr

/-- Whether one `/control?var=..&val=..` call counts as a success in the
loop of `apply_camera_settings` (source lines 278-289): exactly HTTP 200;
any other status or exception sets `success = False`. -/
def requestOk (net : String → Int → NetResult) (p : String × Int) : Bool :=
  net p.1 p.2 == NetResult.status 200

/-- `apply_camera_settings` (source lines 220-294), parameterised by a
network oracle giving each request's outcome.  Returns the list of
requests issued (one per present parameter, in order, none skipped on
failure) and the aggregate boolean result: `False` when the settings list
is empty, otherwise the conjunction of per-request successes. -/
def apply_camera_settings (net : String → Int → NetResult) (s : CameraSettings) :
    List (String × Int) × Bool :=
  let settings := settingsList s
  if settings = [] then ([], false)
  else (settings, settings.all (requestOk net))

/-! ### Resolution tables (source lines 46-68) -/

/-- `RESOLUTIONS`: resolution name to ESP32 `framesize_t` enum code, in
the source's insertion order. -/
def RESOLUTIONS : List (String × Int) :=
  [("qxga", 19), ("uxga", 15), ("sxga", 14), ("xga", 12), ("svga", 11),
   ("vga", 10), ("hvga", 9), ("cif", 8), ("qvga", 6)]

/-- `RESOLUTION_NAMES`: code-to-display-name table, in the source's
insertion order. -/
def RESOLUTION_NAMES : List (Int × String) :=
  [(10, "QXGA (2048x1536)"), (9, "UXGA (1600x1200)"), (8, "SXGA (1280x1024)"),
   (7, "XGA (1024x768)"), (6, "SVGA (800x600)"), (5, "VGA (640x480)"),
   (4, "HVGA (480x320)"), (3, "CIF (400x296)"), (2, "QVGA (320x240)")]

/-- Python `name in RESOLUTIONS` / `RESOLUTIONS[name]` as one lookup. -/
def lookupResolution (name : List Char) : Option Int :=
  (RESOLUTIONS.find? (fun p => p.1.data == name)).map Prod.snd

/-- Python `RESOLUTION_NAMES[code]`: `none` models the `KeyError` raised
when the code is missing from the table. -/
def lookupResolutionName (code : Int) : Option String :=
  (RESOLUTION_NAMES.find? (fun p => p.1 == code)).map Prod.snd

/-- One insertion step of a stable insertion sort by descending second
component. -/
def insertDescByVal (x : String × Int) : List (String × Int) → List (String × Int)
  | [] => [x]
  | y :: ys => if x.2 ≥ y.2 then x :: y :: ys else y :: insertDescByVal x ys

/-- Python `sorted(d.items(), key=lambda x: x[1], reverse=True)`: stable
sort by descending value. -/
def sortDescByVal : List (String × Int) → List (String × Int)
  | [] => []
  | x :: xs => insertDescByVal x (sortDescByVal xs)

/-- The entries printed by the `resolutions` command (source lines
582-586), walking the sorted table: returns the `(name, display)` pairs
printed before any failure, and `some code` when `RESOLUTION_NAMES[code]`
raises a `KeyError` (which stops the loop at that entry). -/
def resolutionEntries : List (String × Int) → List (String × String) × Option Int
  | [] => ([], none)
  | (n, v) :: rest =>
      match lookupResolutionName v with
      | none => ([], some v)
      | some d =>
          let p := resolutionEntries rest
          ((n, d) :: p.1, p.2)

/-! ### The interactive loop (source lines 443-595) -/

/-- Observable side effects of processing one interactive command. -/
inductive Effect where
  | capture
  | applySettings (s : CameraSettings)
  | showStatus
  | showHelp
  | printMsg (m : String)
  | printValMsg (m : String) (v : Int)
  | printResolutions (entries : List (String × String))
  deriving DecidableEq, Repr

/-- Result of one iteration of the `while True` loop: continue looping,
break out of the loop (`quit`), or abort with an uncaught `KeyError`
(the `try` only catches `KeyboardInterrupt` and `EOFError`). -/
inductive LoopOutcome where
  | continueLoop (effs : List Effect)
  | quitLoop (effs : List Effect)
  | raiseKeyError (effs : List Effect) (key : Int)
  deriving DecidableEq, Repr

/-- The `manual <VALUE>` branch (source lines 487-496). -/
def handleManual (tok : List Char) : List Effect :=
  match pyInt tok with
  | none => [.printMsg "Error: Invalid exposure value"]
  | some v =>
      if 0 ≤ v ∧ v ≤ 1200 then
        [.applySettings { noSettings with aec := some 0, aec_value := some v }]
      else [.printMsg "Error: Exposure value must be between 0 and 1200"]

/-- The `gain <VALUE>` branch (source lines 497-506). -/
def handleGain (tok : List Char) : List Effect :=
  match pyInt tok with
  | none => [.printMsg "Error: Invalid gain value"]
  | some v =>
      if 0 ≤ v ∧ v ≤ 30 then
        [.applySettings { noSettings with gain_ctrl := some 0, agc_gain := some v }]
      else [.printMsg "Error: Gain value must be between 0 and 30"]

/-- The `comp <VALUE>` branch (source lines 507-516). -/
def handleComp (tok : List Char) : List Effect :=
  match pyInt tok with
  | none => [.printMsg "Error: Invalid compensation value"]
  | some v =>
      if -2 ≤ v ∧ v ≤ 2 then
        [.applySettings { noSettings with ae_level := some v }]
      else [.printMsg "Error: Compensation value must be between -2 and 2"]

/-- The `quality <VALUE>` branch (source lines 517-527). -/
def handleQuality (tok : List Char) : List Effect :=
  match pyInt tok with
  | none => [.printMsg "Error: Invalid quality value"]
  | some v =>
      if 0 ≤ v ∧ v ≤ 63 then
        [.applySettings { noSettings with quality := some v },
         .printMsg "Note: Lower quality numbers = better image quality (0=best, 63=worst)"]
      else [.printMsg "Error: Quality value must be between 0 and 63"]

/-- The `brightness <VAL>` branch (source lines 528-538). -/
def handleBrightness (tok : List Char) : List Effect :=
  match pyInt tok with
  | none => [.printMsg "Error: Invalid brightness value"]
  | some v =>
      if -2 ≤ v ∧ v ≤ 2 then
        [.applySettings { noSettings with brightness := some v },
         .printValMsg "Brightness set to" v]
      else [.printMsg "Error: Brightness value must be between -2 and 2"]

/-- The `contrast <VALUE>` branch (source lines 539-549). -/
def handleContrast (tok : List Char) : List Effect :=
  match pyInt tok with
  | none => [.printMsg "Error: Invalid contrast value"]
  | some v =>
      if -2 ≤ v ∧ v ≤ 2 then
        [.applySettings { noSettings with contrast := some v },
         .printValMsg "Contrast set to" v]
      else [.printMsg "Error: Contrast value must be between -2 and 2"]

/-- The `saturation <VAL>` branch (source lines 550-560). -/
def handleSaturation (tok : List Char) : List Effect :=
  match pyInt tok with
  | none => [.printMsg "Error: Invalid saturation value"]
  | some v =>
      if -2 ≤ v ∧ v ≤ 2 then
        [.applySettings { noSettings with saturation := some v },
         .printValMsg "Saturation set to" v]
      else [.printMsg "Error: Saturation value must be between -2 and 2"]

/-- The `sharpness <VALUE>` branch (source lines 561-571). -/
def handleSharpness (tok : List Char) : List Effect :=
  match pyInt tok with
  | none => [.printMsg "Error: Invalid sharpness value"]
  | some v =>
      if -2 ≤ v ∧ v ≤ 2 then
        [.applySettings { noSettings with sharpness := some v },
         .printValMsg "Sharpness set to" v]
      else [.printMsg "Error: Sharpness value must be between -2 and 2"]

/-- The `res <NAME>` branch (source lines 572-581): on a known name the
setting is applied, then `RESOLUTION_NAMES[framesize]` is printed — a
lookup that raises `KeyError` when the code is not a key of that table. -/
def handleRes (tok : List Char) : LoopOutcome :=
  match lookupResolution (pyLower tok) with
  | some framesize =>
      match lookupResolutionName framesize with
      | some display =>
          .continueLoop [.applySettings { noSettings with framesize := some framesize },
                         .printMsg ("Resolution set to " ++ display)]
      | none =>
          .raiseKeyError [.applySettings { noSettings with framesize := some framesize }]
            framesize
  | none =>
      .continueLoop [.printMsg ("Error: Unknown resolution " ++ String.mk tok),
                     .printMsg "Available: qxga, uxga, sxga, xga, svga, vga, hvga, cif, qvga"]

/-- The `resolutions` branch (source lines 582-586). -/
def resolutionsOutcome : LoopOutcome :=
  let p := resolutionEntries (sortDescByVal RESOLUTIONS)
  match p.2 with
  | none => .continueLoop [.printMsg "Available Resolutions:", .printResolutions p.1]
  | some k => .raiseKeyError [.printMsg "Available Resolutions:", .printResolutions p.1] k

/-- The final `else` branch (source lines 587-589). -/
def unknownOutcome (command : List Char) : LoopOutcome :=
  .continueLoop [.printMsg ("Unknown command: " ++ String.mk command),
                 .printMsg "Type help or ? for available commands, or press ENTER to capture"]

/-- One iteration of the interactive loop body on an input line (source
lines 465-589): the source's `if`/`elif` chain, on the stripped command,
its lower-cased form, and its whitespace-split parts. -/
def processCommandL (line : List Char) : LoopOutcome :=
  let command := pyStrip line
  if command = [] then .continueLoop [.capture]
  else
    let command_lower := pyLower command
    let parts := pySplit command
    if command_lower = "q".data ∨ command_lower = "quit".data ∨ command_lower = "exit".data then
      .quitLoop [.printMsg "Goodbye!"]
    else if command_lower = "h".data ∨ command_lower = "help".data ∨ command_lower = "?".data then
      .continueLoop [.showHelp]
    else if command_lower = "s".data ∨ command_lower = "status".data then
      .continueLoop [.showStatus]
    else if command_lower = "auto".data then
      .continueLoop [.applySettings { noSettings with aec := some 1, gain_ctrl := some 1 }]
    else if command_lower = "capture".data then
      .continueLoop [.capture]
    else
      match parts with
      | p0 :: p1 :: _ =>
          if p0 = "manual".data then .continueLoop (handleManual p1)
          else if p0 = "gain".data then .continueLoop (handleGain p1)
          else if p0 = "comp".data then .continueLoop (handleComp p1)
          else if p0 = "quality".data then .continueLoop (handleQuality p1)
          else if p0 = "brightness".data then .continueLoop (handleBrightness p1)
          else if p0 = "contrast".data then .continueLoop (handleContrast p1)
          else if p0 = "saturation".data then .continueLoop (handleSaturation p1)
          else if p0 = "sharpness".data then .continueLoop (handleSharpness p1)
          else if p0 = "res".data then handleRes p1
          else if command_lower = "resolutions".data then resolutionsOutcome
          else unknownOutcome command
      | _ =>
          if command_lower = "resolutions".data then resolutionsOutcome
          else unknownOutcome command

/-- One iteration of the interactive loop body, on a `String` line. -/
def processCommand (line : String) : LoopOutcome := processCommandL line.data

/-! ### `capture_image` (source lines 146-193) -/

/-- Outcome of the `requests.get(url, timeout=30)` call in
`capture_image`: a response with a status code and body bytes, or one of
the exception paths of the source's `except` clauses. -/
inductive CaptureNet where
  | resp (code : Nat) (body : List Nat)
  | timeout
  | connError
  | otherError
  deriving DecidableEq, Repr

/-- `capture_image` (source lines 146-193): on HTTP 200 the body is
written to the output file and `True` is returned; on any other status or
on a timeout / connection error / other exception nothing is written and
`False` is returned.  The first component is the file content written
(`none` = no file written). -/
def capture_image (net : CaptureNet) : Option (List Nat) × Bool :=
  match net with
  | .resp code body => if code = 200 then (some body, true) else (none, false)
  | .timeout => (none, false)
  | .connError => (none, false)
  | .otherError => (none, false)

/-! ### `get_status` (source lines 195-218) -/

/-- A parsed status snapshot: the flat field mapping of the JSON payload. -/
def StatusSnapshot : Type := List (String × Int)

instance : DecidableEq StatusSnapshot := by
  unfold StatusSnapshot
  infer_instance

/-- Outcome of the `requests.get(url, timeout=5)` call in `get_status`:
a response with a status code and a payload that either parses as JSON
(`some snap`) or raises on `.json()` (`none`), or a transport exception. -/
inductive StatusNet where
  | resp (code : Nat) (payload : Option StatusSnapshot)
  | exn
  deriving DecidableEq

/-- `get_status` (source lines 195-218): returns the parsed JSON payload
on HTTP 200; returns `None` on any other status; the `except Exception`
clause turns transport errors and `.json()` parse errors into `None`. -/
def get_status (net : StatusNet) : Option StatusSnapshot :=
  match net with
  | .resp code payload =>
      if code = 200 then
        match payload with
        | some snap => some snap
        | none => none
      else none
  | .exn => none

/-! ### Host normalization in `main` (source lines 631-636) -/

/-- Auxiliary for `removeAll` with explicit fuel (the fuel starts at the
length of the list, which the scan can never exceed). -/
def removeAllAux (p : Char) (pt : List Char) : Nat → List Char → List Char
  | _, [] => []
  | 0, l => l
  | fuel + 1, c :: rest =>
      if (p :: pt).isPrefixOf (c :: rest) then
        removeAllAux p pt fuel (rest.drop pt.length)
      else c :: removeAllAux p pt fuel rest

/-- Python `s.replace(pat, "")`: remove every non-overlapping occurrence
of `pat`, scanning left to right. -/
def removeAll (pat : List Char) (l : List Char) : List Char :=
  match pat with
  | [] => l
  | p :: pt => removeAllAux p pt l.length l

/-- Python `s.rstrip("/")`: drop every trailing slash. -/
def rstripSlash (l : List Char) : List Char :=
  (l.reverse.dropWhile (· = '/')).reverse

/-- Host normalization in `main` (source lines 633-636):
`.replace("http://", "").replace("https://", "").rstrip("/")`. -/
def normalizeHost (l : List Char) : List Char :=
  rstripSlash (removeAll "https://".data (removeAll "http://".data l))

/-- Membership test for an occurrence of `p :: pt` inside `l`. -/
def containsSubAux (p : Char) (pt : List Char) : List Char → Bool
  | [] => false
  | c :: rest => (p :: pt).isPrefixOf (c :: rest) || containsSubAux p pt rest

/-- Whether `pat` occurs as a contiguous substring of `l` (empty `pat`
always occurs). -/
def containsSub (pat l : List Char) : Bool :=
  match pat with
  | [] => true
  | p :: pt => containsSubAux p pt l

/-! ### Discovery gating in `main` (source lines 638-659) -/

/-- Outcome of `resolve_mdns_fast`: an IP, or `None` (timeout / error). -/
inductive ResolveOutcome where
  | resolved (ip : List Char)
  | failed
  deriving DecidableEq

/-- How `main` leaves the host-setup phase: early `return 1` with a
guidance message, or proceeding with a usable host. -/
inductive HostSetup where
  | exitErr (code : Nat) (msg : String)
  | proceed (host : List Char)
  deriving DecidableEq

/-- First line of the guidance block printed when `zeroconf` is missing
(source lines 641-650). -/
def zeroconfMissingMsg : String := "ERROR: zeroconf library is required for mDNS hostnames"

/-- Guidance printed when mDNS resolution returns no address (source
lines 657-658). -/
def resolutionFailedMsg : String := "mDNS resolution failed - camera not found"

/-- Whether the normalized host triggers the discovery path (source line
639): it ends with `.local` or contains no dot. -/
def requiresDiscovery (h : List Char) : Bool :=
  ".local".data.isSuffixOf h || !(h.contains '.')

/-- The host-setup phase of `main` (source lines 631-659), parameterised
by `ZEROCONF_AVAILABLE` and an oracle for `resolve_mdns_fast`.  The
second component lists the mDNS lookups performed (the only network
activity in this phase): none at all on the capability-unavailable path. -/
def setupHost (zeroconfAvailable : Bool) (resolve : List Char → ResolveOutcome)
    (rawHost : List Char) : HostSetup × List (List Char) :=
  let h := normalizeHost rawHost
  if requiresDiscovery h then
    if !zeroconfAvailable then (.exitErr 1 zeroconfMissingMsg, [])
    else
      match resolve h with
      | .resolved ip => (.proceed ip, [h])
      | .failed => (.exitErr 1 resolutionFailedMsg, [h])
  else (.proceed h, [])

/-! ### One-shot settings application in `main` (source lines 661-694) -/

/-- The camera-setting CLI flags parsed by `argparse` (source lines
619-627). -/
structure CliArgs where
  auto_exposure : Bool := false
  manual_exposure : Option Int := none
  exposure_comp : Option Int := none
  auto_gain : Bool := false
  manual_gain : Option Int := none
  quality : Option Int := none
  resolution : Option String := none
  deriving DecidableEq

/-- How the settings phase of `main` ends: early `return 1` with an
error message, an uncaught lookup `KeyError`, or falling through with
the accumulated `settings_changed` flag. -/
inductive MainOutcome where
  | exitErr (code : Nat) (msg : String)
  | raiseKeyCode (key : Int)
  | proceed (settingsChanged : Bool)
  deriving DecidableEq

/-- Range-violation message for `--exposure-comp` (source line 672). -/
def compRangeMsg : String := "Error: Exposure compensation must be between -2 and 2"

/-- Range-violation message for `--quality` (source line 684). -/
def qualityRangeMsg : String := "Error: Quality must be between 0 and 63"

/-- The `--resolution` stage of `main` (source lines 687-690): look the
name up in `RESOLUTIONS`, apply the setting, then print
`RESOLUTION_NAMES[framesize]` — which raises a `KeyError` when the code
is missing from that table. -/
def mainAfterQuality (net : String → Int → NetResult) (a : CliArgs)
    (reqs : List (String × Int)) (changed : Bool) : List (String × Int) × MainOutcome :=
  match a.resolution with
  | some rname =>
      match lookupResolution (pyLower rname.data) with
      | some framesize =>
          let p := apply_camera_settings net { noSettings with framesize := some framesize }
          match lookupResolutionName framesize with
          | some _ => (reqs ++ p.1, .proceed (changed || p.2))
          | none => (reqs ++ p.1, .raiseKeyCode framesize)
      | none => (reqs, .raiseKeyCode (-1))
  | none => (reqs, .proceed changed)

/-- The gain and quality stages of `main` (source lines 675-685):
`--auto-gain` / `--manual-gain` are applied with no client-side range
check; `--quality` is range-checked with an early `return 1`. -/
def mainAfterComp (net : String → Int → NetResult) (a : CliArgs)
    (reqs : List (String × Int)) (changed : Bool) : List (String × Int) × MainOutcome :=
  let gainTaken := a.auto_gain || a.manual_gain.isSome
  let sg :=
    if gainTaken then
      apply_camera_settings net { noSettings with
        gain_ctrl := some (if a.auto_gain then 1 else 0), agc_gain := a.manual_gain }
    else ([], false)
  let reqs2 := reqs ++ sg.1
  let changed2 := changed || (gainTaken && sg.2)
  match a.quality with
  | some q =>
      if 0 ≤ q ∧ q ≤ 63 then
        let p := apply_camera_settings net { noSettings with quality := some q }
        mainAfterQuality net a (reqs2 ++ p.1) (changed2 || p.2)
      else (reqs2, .exitErr 1 qualityRangeMsg)
  | none => mainAfterQuality net a reqs2 changed2

/-- The settings phase of `main` (source lines 661-694): exposure flags
(no client-side range check on `--manual-exposure`), then the
range-checked `--exposure-comp`, then gain, quality and resolution.
Returns every `/control` request issued, in order, and how the phase
ends. -/
def mainApplySettings (net : String → Int → NetResult) (a : CliArgs) :
    List (String × Int) × MainOutcome :=
  let expTaken := a.auto_exposure || a.manual_exposure.isSome
  let se :=
    if expTaken then
      apply_camera_settings net { noSettings with
        aec := some (if a.auto_exposure then 1 else 0), aec_value := a.manual_exposure }
    else ([], false)
  let reqs1 := se.1
  let changed1 := expTaken && se.2
  match a.exposure_comp with
  | some c =>
      if -2 ≤ c ∧ c ≤ 2 then
        let p := apply_camera_settings net { noSettings with ae_level := some c }
        mainAfterComp net a (reqs1 ++ p.1) (changed1 || p.2)
      else (reqs1, .exitErr 1 compRangeMsg)
  | none => mainAfterComp net a reqs1 changed1

/-- The fixed order in which `apply_camera_settings` inspects its
parameters (source lines 245-266). -/
def settingOrder : List String :=
  ["aec", "aec_value", "ae_level", "gain_ctrl", "agc_gain", "quality", "framesize",
   "brightness", "contrast", "saturation", "sharpness"]

/-! ### Helper lemmas -/

/-- One per-request success test unfolded to a propositional equation. -/
theorem requestOk_eq_true_iff (net : String → Int → NetResult) (p : String × Int) :
    requestOk net p = true ↔ net p.1 p.2 = NetResult.status 200 := by
  unfold requestOk
  exact beq_iff_eq

/-- A scan that finds no occurrence of the pattern leaves the list
unchanged, for every fuel value. -/
theorem removeAllAux_no_occur (p : Char) (pt : List Char) :
    ∀ (l : List Char), containsSubAux p pt l = false →
      ∀ fuel, removeAllAux p pt fuel l = l := by
  intro l
  induction l with
  | nil => intro _ fuel; cases fuel <;> rfl
  | cons c rest ih =>
      intro h fuel
      rw [containsSubAux, Bool.or_eq_false_iff] at h
      cases fuel with
      | zero => rfl
      | succ f =>
          rw [removeAllAux, if_neg (by simp [h.1]), ih h.2 f]

/-- Removing a pattern from a string that does not contain it is the
identity. -/
theorem removeAll_no_occur (pat l : List Char) (h : containsSub pat l = false) :
    removeAll pat l = l := by
  cases pat with
  | nil => rfl
  | cons p pt => exact removeAllAux_no_occur p pt l h l.length

/-- Removing a pattern from `pat ++ core` erases the leading copy and,
when `core` itself contains no occurrence, leaves exactly `core`. -/
theorem removeAll_strip_leading (p : Char) (pt core : List Char)
    (h : containsSub (p :: pt) core = false) :
    removeAll (p :: pt) ((p :: pt) ++ core) = core := by
  have hlen : ((p :: pt) ++ core).length = (pt.length + core.length) + 1 := by
    simp [List.length_append]
  rw [removeAll]
  rw [hlen]
  rw [List.cons_append, removeAllAux,
    if_pos (by exact List.isPrefixOf_iff_prefix.mpr ⟨core, by simp⟩)]
  rw [show List.drop pt.length (pt ++ core) = core from by simp [List.drop_append]]
  exact removeAllAux_no_occur p pt core h _

/-- Appending an optional present setting keeps the projection to names
a sublist of the name list extended by that name. -/
theorem optSetting_fst_sublist (name : String) (v : Option Int)
    (rest : List (String × Int)) (L : List String)
    (h : (rest.map Prod.fst).Sublist L) :
    ((optSetting name v rest).map Prod.fst).Sublist (name :: L) := by
  cases v with
  | none => exact h.cons name
  | some x => exact h.cons₂ name

/-- Whatever subset of parameters is present, the request names appear
in the fixed textual order of the source. -/
theorem settingsList_fst_sublist (s : CameraSettings) :
    ((settingsList s).map Prod.fst).Sublist settingOrder := by
  unfold settingsList settingOrder
  apply optSetting_fst_sublist
  apply optSetting_fst_sublist
  apply optSetting_fst_sublist
  apply optSetting_fst_sublist
  apply optSetting_fst_sublist
  apply optSetting_fst_sublist
  apply optSetting_fst_sublist
  apply optSetting_fst_sublist
  apply optSetting_fst_sublist
  apply optSetting_fst_sublist
  apply optSetting_fst_sublist
  simp

/-! ### Claim theorems -/

/-- Claim C2 (code_bug evidence): the `resolutions` command does not
print the nine-entry table — its very first iteration (qxga, whose
framesize code is 19) hits `RESOLUTION_NAMES[19]`, a key absent from
that table, so the command raises a `KeyError` after printing only the
header, and the uncaught exception aborts the loop instead of returning
to the prompt. -/
theorem c2_resolutions_raises_keyerror :
    processCommand "resolutions" =
      .raiseKeyError [.printMsg "Available Resolutions:", .printResolutions []] 19 := by
  decide

/-- Claim C3 (code_bug evidence): the recognized command `res qxga` with
a valid table name does not re-prompt — after issuing the framesize
request it evaluates `RESOLUTION_NAMES[19]`, which raises an uncaught
`KeyError` (the loop's `try` only catches `KeyboardInterrupt` and
`EOFError`), so the interactive loop aborts on this input. -/
theorem c3_res_qxga_aborts_loop :
    processCommand "res qxga" =
      .raiseKeyError [.applySettings { noSettings with framesize := some 19 }] 19 := by
  decide

/-- Claim C4: for every nonempty settings list, `apply_camera_settings`
issues one request per present parameter — the issued list is exactly
the settings list, with no request skipped after a failure — and the
aggregate result is `True` iff every individual request returned
status 200. -/
theorem c4_apply_all_requests_and_aggregate
    (net : String → Int → NetResult) (s : CameraSettings)
    (h : settingsList s ≠ []) :
    (apply_camera_settings net s).1 = settingsList s ∧
    ((apply_camera_settings net s).2 = true ↔
      ∀ p ∈ settingsList s, net p.1 p.2 = NetResult.status 200) := by
  unfold apply_camera_settings
  rw [if_neg h]
  refine ⟨rfl, ?_⟩
  rw [List.all_eq_true]
  constructor
  · intro hall p hp
    exact (requestOk_eq_true_iff net p).mp (hall p hp)
  · intro hall p hp
    exact (requestOk_eq_true_iff net p).mpr (hall p hp)

/-- Witness for C4: three settings where the middle request fails — all
three requests are issued and the aggregate result is not success. -/
theorem c4_apply_all_requests_and_aggregate_witness :
    ((apply_camera_settings
        (fun var _ => if var = "quality" then .status 500 else .status 200)
        { noSettings with aec := some 1, quality := some 10, brightness := some 1 }).1 =
      settingsList
        { noSettings with aec := some 1, quality := some 10, brightness := some 1 } ∧
    ((apply_camera_settings
        (fun var _ => if var = "quality" then .status 500 else .status 200)
        { noSettings with aec := some 1, quality := some 10, brightness := some 1 }).2 = true ↔
      ∀ p ∈ settingsList
          { noSettings with aec := some 1, quality := some 10, brightness := some 1 },
        (fun var _ => if var = "quality" then NetResult.status 500 else .status 200) p.1 p.2 =
          NetResult.status 200)) :=
  c4_apply_all_requests_and_aggregate
    (fun var _ => if var = "quality" then .status 500 else .status 200)
    { noSettings with aec := some 1, quality := some 10, brightness := some 1 }
    (by decide)

/-- Claim C5: a 200 response with body `b` writes exactly `b` (all of
its bytes) to the target file and reports success; any non-200 status,
timeout or connection failure writes no file and reports failure. -/
theorem c5_capture_writes_exactly_on_200 :
    (∀ body : List Nat, capture_image (.resp 200 body) = (some body, true)) ∧
    (∀ (code : Nat) (body : List Nat), code ≠ 200 →
      capture_image (.resp code body) = (none, false)) ∧
    capture_image .timeout = (none, false) ∧
    capture_image .connError = (none, false) ∧
    capture_image .otherError = (none, false) := by
  refine ⟨fun body => rfl, ?_, rfl, rfl, rfl⟩
  intro code body h
  simp only [capture_image]
  rw [if_neg h]

/-- Witness for C5 at a 3-byte body and at status 404. -/
theorem c5_capture_writes_exactly_on_200_witness :
    capture_image (.resp 200 [7, 8, 9]) = (some [7, 8, 9], true) ∧
    capture_image (.resp 404 [7, 8, 9]) = (none, false) :=
  ⟨c5_capture_writes_exactly_on_200.1 [7, 8, 9],
   c5_capture_writes_exactly_on_200.2.1 404 [7, 8, 9] (by decide)⟩

/-- Claim C6: `get_status` returns the parsed snapshot exactly as
received on a 200 response with a well-formed payload, and returns
`None` — never a default or fabricated snapshot — on a malformed
payload, on any non-200 status, and on a transport error. -/
theorem c6_get_status_exact_or_none :
    (∀ snap : StatusSnapshot, get_status (.resp 200 (some snap)) = some snap) ∧
    get_status (.resp 200 none) = none ∧
    (∀ (code : Nat) (payload : Option StatusSnapshot), code ≠ 200 →
      get_status (.resp code payload) = none) ∧
    get_status .exn = none := by
  refine ⟨fun snap => rfl, rfl, ?_, rfl⟩
  intro code payload h
  simp only [get_status]
  rw [if_neg h]

/-- Witness for C6 at a concrete snapshot and at status 500. -/
theorem c6_get_status_exact_or_none_witness :
    get_status (.resp 200 (some [("quality", 10)])) = some [("quality", 10)] ∧
    get_status (.resp 500 (some [("quality", 10)])) = none :=
  ⟨c6_get_status_exact_or_none.1 [("quality", 10)],
   c6_get_status_exact_or_none.2.2.1 500 (some [("quality", 10)]) (by decide)⟩

/-- Claim C10: `apply_camera_settings` with every parameter absent
returns failure and issues no request at all. -/
theorem c10_no_settings_no_requests :
    ∀ net : String → Int → NetResult, apply_camera_settings net noSettings = ([], false) := by
  intro net
  rfl

/-- Claim C7: host normalization strips a leading scheme prefix and all
trailing slashes before any request is made; in particular
`"http://1.2.3.4/"` normalizes to `"1.2.3.4"`.  The general parts are
stated for hosts whose remainder contains no further scheme occurrence
(the source's `str.replace` removes every occurrence). -/
theorem c7_host_normalization :
    normalizeHost "http://1.2.3.4/".data = "1.2.3.4".data ∧
    (∀ core : List Char, containsSub "http://".data core = false →
      containsSub "https://".data core = false →
      normalizeHost ("http://".data ++ core) = rstripSlash core) ∧
    (∀ core : List Char, containsSub "http://".data ("https://".data ++ core) = false →
      containsSub "https://".data core = false →
      normalizeHost ("https://".data ++ core) = rstripSlash core) := by
  refine ⟨by decide, ?_, ?_⟩
  · intro core h1 h2
    have e1 : removeAll "http://".data ("http://".data ++ core) = core :=
      removeAll_strip_leading 'h' "ttp://".data core h1
    unfold normalizeHost
    rw [e1, removeAll_no_occur _ _ h2]
  · intro core h1 h2
    have e1 : removeAll "http://".data ("https://".data ++ core) =
        "https://".data ++ core := removeAll_no_occur _ _ h1
    have e2 : removeAll "https://".data ("https://".data ++ core) = core :=
      removeAll_strip_leading 'h' "ttps://".data core h2
    unfold normalizeHost
    rw [e1, e2]

/-- Witness for C7 on the host remainder `cam/`. -/
theorem c7_host_normalization_witness :
    containsSub "http://".data "cam/".data = false ∧
    containsSub "https://".data "cam/".data = false ∧
    normalizeHost ("http://".data ++ "cam/".data) = rstripSlash "cam/".data :=
  ⟨by decide, by decide, c7_host_normalization.2.1 "cam/".data (by decide) (by decide)⟩

/-- Claim C8: when the normalized host requires discovery and the
zeroconf capability is absent, `main` fails with the guidance block and
exit code 1 before any network activity (no mDNS lookup is performed,
and the early return precedes every HTTP request); the resolution-
timeout path fails with a different message and the same exit code 1. -/
theorem c8_capability_unavailable_and_timeout_paths :
    (∀ (resolve : List Char → ResolveOutcome) (rawHost : List Char),
      requiresDiscovery (normalizeHost rawHost) = true →
      setupHost false resolve rawHost = (.exitErr 1 zeroconfMissingMsg, [])) ∧
    (∀ (resolve : List Char → ResolveOutcome) (rawHost : List Char),
      requiresDiscovery (normalizeHost rawHost) = true →
      resolve (normalizeHost rawHost) = .failed →
      setupHost true resolve rawHost =
        (.exitErr 1 resolutionFailedMsg, [normalizeHost rawHost])) ∧
    zeroconfMissingMsg ≠ resolutionFailedMsg := by
  refine ⟨?_, ?_, by decide⟩
  · intro resolve rawHost h
    simp [setupHost, h]
  · intro resolve rawHost h hres
    simp [setupHost, h, hres]

/-- Witness for C8 at the host `cam.local` with a resolver that finds
nothing. -/
theorem c8_capability_unavailable_and_timeout_paths_witness :
    requiresDiscovery (normalizeHost "cam.local".data) = true ∧
    setupHost false (fun _ => .failed) "cam.local".data =
      (.exitErr 1 zeroconfMissingMsg, []) ∧
    setupHost true (fun _ => .failed) "cam.local".data =
      (.exitErr 1 resolutionFailedMsg, [normalizeHost "cam.local".data]) :=
  ⟨by decide,
   c8_capability_unavailable_and_timeout_paths.1 (fun _ => .failed) "cam.local".data
     (by decide),
   c8_capability_unavailable_and_timeout_paths.2.1 (fun _ => .failed) "cam.local".data
     (by decide) rfl⟩

/-- Claim C9: the requests of one `apply_camera_settings` call follow
the fixed parameter order of the source for every subset of present
parameters, and the interactive `manual` and `gain` commands send the
mode toggle strictly before the manual value (`aec=0` before
`aec_value=v`; `gain_ctrl=0` before `agc_gain=v`). -/
theorem c9_fixed_request_order :
    (∀ s : CameraSettings, ((settingsList s).map Prod.fst).Sublist settingOrder) ∧
    (∀ (tok : List Char) (v : Int), pyInt tok = some v → 0 ≤ v → v ≤ 1200 →
      handleManual tok =
        [.applySettings { noSettings with aec := some 0, aec_value := some v }]) ∧
    (∀ (net : String → Int → NetResult) (v : Int),
      (apply_camera_settings net
        { noSettings with aec := some 0, aec_value := some v }).1 =
        [("aec", 0), ("aec_value", v)]) ∧
    (∀ (tok : List Char) (v : Int), pyInt tok = some v → 0 ≤ v → v ≤ 30 →
      handleGain tok =
        [.applySettings { noSettings with gain_ctrl := some 0, agc_gain := some v }]) ∧
    (∀ (net : String → Int → NetResult) (v : Int),
      (apply_camera_settings net
        { noSettings with gain_ctrl := some 0, agc_gain := some v }).1 =
        [("gain_ctrl", 0), ("agc_gain", v)]) := by
  refine ⟨settingsList_fst_sublist, ?_, ?_, ?_, ?_⟩
  · intro tok v hp h0 h1
    unfold handleManual
    rw [hp]
    exact if_pos ⟨h0, h1⟩
  · intro net v
    rfl
  · intro tok v hp h0 h1
    unfold handleGain
    rw [hp]
    exact if_pos ⟨h0, h1⟩
  · intro net v
    rfl

/-- Witness for C9 at `manual 300` and `gain 5`. -/
theorem c9_fixed_request_order_witness :
    pyInt "300".data = some 300 ∧
    handleManual "300".data =
      [.applySettings { noSettings with aec := some 0, aec_value := some 300 }] ∧
    pyInt "5".data = some 5 ∧
    handleGain "5".data =
      [.applySettings { noSettings with gain_ctrl := some 0, agc_gain := some 5 }] :=
  ⟨by decide,
   c9_fixed_request_order.2.1 "300".data 300 (by decide) (by decide) (by decide),
   by decide,
   c9_fixed_request_order.2.2.2.1 "5".data 5 (by decide) (by decide) (by decide)⟩

/-- Claim C1 counterexample: in one-shot mode the claim fails —
`--manual-exposure 5000` is out of the claimed range [0,1200], yet no
violation is reported and the request `aec_value=5000` is sent to the
device (the `main` settings phase performs no range check on exposure). -/
theorem c1_counterexample_oneshot_unvalidated_exposure :
    (1200 : Int) < 5000 ∧
    (mainApplySettings (fun _ _ => .status 200)
        { manual_exposure := some 5000 : CliArgs }).1 =
      [("aec", 0), ("aec_value", 5000)] := by
  decide

/-- Claim C1 (amended): the claimed range validation — value accepted
iff within bounds, violation reported with no request sent — holds for
all eight numeric parameters in the interactive shell, and in one-shot
mode for compensation and quality only (whose violations exit with
code 1 before that parameter's request); in one-shot mode the
`--manual-exposure` and `--manual-gain` values are sent without any
client-side range check. -/
theorem c1_amended_range_validation :
    (∀ (tok : List Char) (v : Int), pyInt tok = some v →
      handleManual tok =
        if 0 ≤ v ∧ v ≤ 1200 then
          [.applySettings { noSettings with aec := some 0, aec_value := some v }]
        else [.printMsg "Error: Exposure value must be between 0 and 1200"]) ∧
    (∀ (tok : List Char) (v : Int), pyInt tok = some v →
      handleGain tok =
        if 0 ≤ v ∧ v ≤ 30 then
          [.applySettings { noSettings with gain_ctrl := some 0, agc_gain := some v }]
        else [.printMsg "Error: Gain value must be between 0 and 30"]) ∧
    (∀ (tok : List Char) (v : Int), pyInt tok = some v →
      handleComp tok =
        if -2 ≤ v ∧ v ≤ 2 then
          [.applySettings { noSettings with ae_level := some v }]
        else [.printMsg "Error: Compensation value must be between -2 and 2"]) ∧
    (∀ (tok : List Char) (v : Int), pyInt tok = some v →
      handleQuality tok =
        if 0 ≤ v ∧ v ≤ 63 then
          [.applySettings { noSettings with quality := some v },
           .printMsg "Note: Lower quality numbers = better image quality (0=best, 63=worst)"]
        else [.printMsg "Error: Quality value must be between 0 and 63"]) ∧
    (∀ (tok : List Char) (v : Int), pyInt tok = some v →
      handleBrightness tok =
        if -2 ≤ v ∧ v ≤ 2 then
          [.applySettings { noSettings with brightness := some v },
           .printValMsg "Brightness set to" v]
        else [.printMsg "Error: Brightness value must be between -2 and 2"]) ∧
    (∀ (tok : List Char) (v : Int), pyInt tok = some v →
      handleContrast tok =
        if -2 ≤ v ∧ v ≤ 2 then
          [.applySettings { noSettings with contrast := some v },
           .printValMsg "Contrast set to" v]
        else [.printMsg "Error: Contrast value must be between -2 and 2"]) ∧
    (∀ (tok : List Char) (v : Int), pyInt tok = some v →
      handleSaturation tok =
        if -2 ≤ v ∧ v ≤ 2 then
          [.applySettings { noSettings with saturation := some v },
           .printValMsg "Saturation set to" v]
        else [.printMsg "Error: Saturation value must be between -2 and 2"]) ∧
    (∀ (tok : List Char) (v : Int), pyInt tok = some v →
      handleSharpness tok =
        if -2 ≤ v ∧ v ≤ 2 then
          [.applySettings { noSettings with sharpness := some v },
           .printValMsg "Sharpness set to" v]
        else [.printMsg "Error: Sharpness value must be between -2 and 2"]) ∧
    (∀ (net : String → Int → NetResult) (c : Int), ¬(-2 ≤ c ∧ c ≤ 2) →
      mainApplySettings net { exposure_comp := some c : CliArgs } =
        ([], .exitErr 1 compRangeMsg)) ∧
    (∀ (net : String → Int → NetResult) (c : Int), -2 ≤ c ∧ c ≤ 2 →
      (mainApplySettings net { exposure_comp := some c : CliArgs }).1 =
        [("ae_level", c)]) ∧
    (∀ (net : String → Int → NetResult) (q : Int), ¬(0 ≤ q ∧ q ≤ 63) →
      mainApplySettings net { quality := some q : CliArgs } =
        ([], .exitErr 1 qualityRangeMsg)) ∧
    (∀ (net : String → Int → NetResult) (q : Int), 0 ≤ q ∧ q ≤ 63 →
      (mainApplySettings net { quality := some q : CliArgs }).1 =
        [("quality", q)]) ∧
    (∀ (net : String → Int → NetResult) (v : Int),
      (mainApplySettings net { manual_exposure := some v : CliArgs }).1 =
        [("aec", 0), ("aec_value", v)]) ∧
    (∀ (net : String → Int → NetResult) (v : Int),
      (mainApplySettings net { manual_gain := some v : CliArgs }).1 =
        [("gain_ctrl", 0), ("agc_gain", v)]) := by
  refine ⟨?_, ?_, ?_, ?_, ?_, ?_, ?_, ?_, ?_, ?_, ?_, ?_, ?_, ?_⟩
  · intro tok v hp
    unfold handleManual
    rw [hp]
  · intro tok v hp
    unfold handleGain
    rw [hp]
  · intro tok v hp
    unfold handleComp
    rw [hp]
  · intro tok v hp
    unfold handleQuality
    rw [hp]
  · intro tok v hp
    unfold handleBrightness
    rw [hp]
  · intro tok v hp
    unfold handleContrast
    rw [hp]
  · intro tok v hp
    unfold handleSaturation
    rw [hp]
  · intro tok v hp
    unfold handleSharpness
    rw [hp]
  · intro net c h
    simp [mainApplySettings, h]
  · intro net c h
    simp [mainApplySettings, mainAfterComp, mainAfterQuality, apply_camera_settings,
      settingsList, optSetting, noSettings, h]
  · intro net q h
    simp [mainApplySettings, mainAfterComp, h]
  · intro net q h
    simp [mainApplySettings, mainAfterComp, mainAfterQuality, apply_camera_settings,
      settingsList, optSetting, noSettings, h]
  · intro net v
    simp [mainApplySettings, mainAfterComp, mainAfterQuality, apply_camera_settings,
      settingsList, optSetting, noSettings]
  · intro net v
    simp [mainApplySettings, mainAfterComp, mainAfterQuality, apply_camera_settings,
      settingsList, optSetting, noSettings]

/-- Witness for C1 (amended) at concrete in-range and out-of-range
inputs for each validated path. -/
theorem c1_amended_range_validation_witness :
    handleManual "300".data =
      [.applySettings { noSettings with aec := some 0, aec_value := some 300 }] ∧
    handleManual "1201".data =
      [.printMsg "Error: Exposure value must be between 0 and 1200"] ∧
    handleGain "31".data = [.printMsg "Error: Gain value must be between 0 and 30"] ∧
    handleComp "-2".data = [.applySettings { noSettings with ae_level := some (-2) }] ∧
    handleQuality "64".data = [.printMsg "Error: Quality value must be between 0 and 63"] ∧
    handleBrightness "3".data =
      [.printMsg "Error: Brightness value must be between -2 and 2"] ∧
    handleContrast "1".data =
      [.applySettings { noSettings with contrast := some 1 },
       .printValMsg "Contrast set to" 1] ∧
    handleSaturation "-3".data =
      [.printMsg "Error: Saturation value must be between -2 and 2"] ∧
    handleSharpness "2".data =
      [.applySettings { noSettings with sharpness := some 2 },
       .printValMsg "Sharpness set to" 2] ∧
    mainApplySettings (fun _ _ => .status 200) { exposure_comp := some 9 : CliArgs } =
      ([], .exitErr 1 compRangeMsg) ∧
    (mainApplySettings (fun _ _ => .status 200)
        { exposure_comp := some 1 : CliArgs }).1 = [("ae_level", 1)] ∧
    mainApplySettings (fun _ _ => .status 200) { quality := some 99 : CliArgs } =
      ([], .exitErr 1 qualityRangeMsg) ∧
    (mainApplySettings (fun _ _ => .status 200)
        { quality := some 10 : CliArgs }).1 = [("quality", 10)] := by
  refine ⟨?_, ?_, ?_, ?_, ?_, ?_, ?_, ?_, ?_, ?_, ?_, ?_, ?_⟩
  · rw [c1_amended_range_validation.1 "300".data 300 (by decide)]
    decide
  · rw [c1_amended_range_validation.1 "1201".data 1201 (by decide)]
    decide
  · rw [c1_amended_range_validation.2.1 "31".data 31 (by decide)]
    decide
  · rw [c1_amended_range_validation.2.2.1 "-2".data (-2) (by decide)]
    decide
  · rw [c1_amended_range_validation.2.2.2.1 "64".data 64 (by decide)]
    decide
  · rw [c1_amended_range_validation.2.2.2.2.1 "3".data 3 (by decide)]
    decide
  · rw [c1_amended_range_validation.2.2.2.2.2.1 "1".data 1 (by decide)]
    decide
  · rw [c1_amended_range_validation.2.2.2.2.2.2.1 "-3".data (-3) (by decide)]
    decide
  · rw [c1_amended_range_validation.2.2.2.2.2.2.2.1 "2".data 2 (by decide)]
    decide
  · exact c1_amended_range_validation.2.2.2.2.2.2.2.2.1
      (fun _ _ => .status 200) 9 (by decide)
  · exact c1_amended_range_validation.2.2.2.2.2.2.2.2.2.1
      (fun _ _ => .status 200) 1 (by decide)
  · exact c1_amended_range_validation.2.2.2.2.2.2.2.2.2.2.1
      (fun _ _ => .status 200) 99 (by decide)
  · exact c1_amended_range_validation.2.2.2.2.2.2.2.2.2.2.2.1
      (fun _ _ => .status 200) 10 (by decide)
